import Mathlib

/-!
Shallow embedding of the axiom-py client library (src/src/axiom_py) used to
check the natural-language specification against the code.

Each definition is translated from a concrete Python function or class of the
repository; the file states and proves the spec claims about those
definitions.
-/

set_option maxRecDepth 4096

/-! ## Python value helpers -/


/-- ASCII digit test, the character class `[0-9]` of the Python regexes. -/
def isAsciiDigit (c : Char) : Bool := 48 ≤ c.toNat && c.toNat ≤ 57

/-- ASCII lowercase-letter test, the character class `[a-z]`. -/
def isLowerAlpha (c : Char) : Bool := 97 ≤ c.toNat && c.toNat ≤ 122

/-- Numeric value of an ASCII digit character. -/
def digitVal (c : Char) : Nat := c.toNat - 48

/-- Python `str` of a non-negative integer (all integers stringified in the
embedded code paths are non-negative). -/
def pyStrNat (n : Nat) : String := Nat.repr n

/-! ## `datetime.timedelta`

Python's `datetime.timedelta` normalizes its value to days / seconds /
microseconds; we model the value as a total count of microseconds (an
integer), which determines the normalized components.  The `.seconds`
attribute used by `handle_json_serialization` is the normalized seconds
component `(total_us // 10^6) % 86400` (Python floor division and modulus,
i.e. `Int.ediv` / `Int.emod`). -/

structure Timedelta where
  totalMicroseconds : Int
deriving DecidableEq, Repr

/-- `timedelta(seconds=v)` -/
def Timedelta.ofSeconds (v : Nat) : Timedelta := ⟨(v : Int) * 1000000⟩

/-- `timedelta(minutes=v)` -/
def Timedelta.ofMinutes (v : Nat) : Timedelta := ⟨(v : Int) * 60 * 1000000⟩

/-- `timedelta(hours=v)` -/
def Timedelta.ofHours (v : Nat) : Timedelta := ⟨(v : Int) * 3600 * 1000000⟩

/-- `timedelta(days=v)` -/
def Timedelta.ofDays (v : Nat) : Timedelta := ⟨(v : Int) * 86400 * 1000000⟩

/-- The `.seconds` attribute of a Python `timedelta`: the normalized
seconds-within-day component. -/
def Timedelta.secondsAttr (t : Timedelta) : Int :=
  Int.emod (Int.ediv t.totalMicroseconds 1000000) 86400

/-! ## `axiom_py.util._convert_string_to_timedelta`

```python
def _convert_string_to_timedelta(val: str) -> timedelta:
    if val == "0":
        return timedelta(seconds=0)
    exp = "^([0-9]?)([a-z])$"
    found = re.search(exp, val)
    if not found:
        raise Exception(f"failed to parse timedelta field from value {val}")
    v = int(found.groups()[0])
    unit = found.groups()[1]
    if unit == "s": ...
```

The regex anchors on both sides, so it matches exactly the strings that are
one optional ASCII digit followed by one lowercase letter.  When the optional
digit group is empty, `int("")` raises a `ValueError`, distinct from the
`Exception("failed to parse ...")` raised on a non-match or unknown unit. -/

/-- Errors raised by the embedded Python code: `ValueError` from `int("")`,
or an explicit `raise Exception(msg)`. -/
inductive PyErr where
  | valueError : PyErr
  | exception (msg : String) : PyErr
deriving DecidableEq, Repr

instance {ε α : Type} [DecidableEq ε] [DecidableEq α] : DecidableEq (Except ε α) := fun x y =>
  match x, y with
  | .ok a, .ok b =>
      if h : a = b then .isTrue (by rw [h]) else .isFalse (by simp [h])
  | .error a, .error b =>
      if h : a = b then .isTrue (by rw [h]) else .isFalse (by simp [h])
  | .ok _, .error _ => .isFalse (by simp)
  | .error _, .ok _ => .isFalse (by simp)

/-- Match of `^([0-9]?)([a-z])$` against a character list: returns the
(optional) digit group and the letter group on success. -/
def matchTimedeltaRegex : List Char → Option (Option Char × Char)
  | [c] => if isLowerAlpha c then some (none, c) else none
  | [c₁, c₂] =>
      if isAsciiDigit c₁ && isLowerAlpha c₂ then some (some c₁, c₂) else none
  | _ => none

/-- `axiom_py.util._convert_string_to_timedelta`. -/
def convert_string_to_timedelta (val : String) : Except PyErr Timedelta :=
  if val = "0" then .ok (Timedelta.ofSeconds 0)
  else
    match matchTimedeltaRegex val.data with
    | none =>
        .error (.exception ("failed to parse timedelta field from value " ++ val))
    | some (digitGroup, unit) =>
        match digitGroup with
        | none => .error .valueError
        | some d =>
            let v := digitVal d
            if unit = 's' then .ok (Timedelta.ofSeconds v)
            else if unit = 'm' then .ok (Timedelta.ofMinutes v)
            else if unit = 'h' then .ok (Timedelta.ofHours v)
            else if unit = 'd' then .ok (Timedelta.ofDays v)
            else .error (.exception ("failed to parse timedelta field from value " ++ val))

/-! ## `axiom_py.util.handle_json_serialization` (timedelta branch)

```python
elif isinstance(obj, timedelta):
    return str(obj.seconds) + "s"
```

The serializer emits the normalized `.seconds` component followed by `"s"`:
minutes and hours are flattened to their total seconds, and whole days
disappear entirely (`timedelta(days=3).seconds == 0`). -/

/-- The `isinstance(obj, timedelta)` branch of `handle_json_serialization`. -/
def serialize_timedelta (t : Timedelta) : String :=
  pyStrNat t.secondsAttr.toNat ++ "s"

/-- The four duration units accepted by `_convert_string_to_timedelta`. -/
inductive TdUnit where
  | s | m | h | d
deriving DecidableEq, Repr

/-- The `timedelta` denoted by `<n><unit>`. -/
def TdUnit.apply : TdUnit → Nat → Timedelta
  | .s, n => .ofSeconds n
  | .m, n => .ofMinutes n
  | .h, n => .ofHours n
  | .d, n => .ofDays n

/-! ## `axiom_py.logging.AxiomHandler` and `axiom_py.logging_async.AsyncAxiomHandler`

The mutable handler state is `(buffer, last_flush, interval)`.  Time is the
monotonic clock, modelled as a natural number passed in at each call
(`time.monotonic()` is non-decreasing, so `now - last_flush` is the Python
subtraction).  The injected ingest function `client.ingest_events(dataset, _)`
is a parameter `ingest : List R → Option E` returning `some e` when the call
raises `e` and `none` on success.  Results carry the number of ingest calls
performed and, for the synchronous handler, the exception that propagates to
the caller (`none` when the call returns normally).  The `threading.Timer`
restart in `emit` and the background timer itself perform no buffer or
ingest activity and are not modelled. -/

structure HandlerState (R : Type) where
  buffer : List R
  lastFlush : Nat
  interval : Nat
deriving DecidableEq, Repr

/-- `AxiomHandler.flush` (synchronous handler, `logging.py`):

```python
def flush(self):
    self.last_flush = time.monotonic()
    if len(self.buffer) == 0:
        return
    local_buffer, self.buffer = self.buffer, []
    self.client.ingest_events(self.dataset, local_buffer)
```

There is no `try`/`except`: an exception raised by `ingest_events`
propagates to the caller (third component of the result). -/
def AxiomHandler.flush {R E : Type} (ingest : List R → Option E) (now : Nat)
    (s : HandlerState R) : HandlerState R × Nat × Option E :=
  let s₁ := { s with lastFlush := now }
  if s₁.buffer.length = 0 then (s₁, 0, none)
  else
    let localBuffer := s₁.buffer
    let s₂ := { s₁ with buffer := [] }
    (s₂, 1, ingest localBuffer)

/-- `AxiomHandler.emit` (synchronous handler, `logging.py`):

```python
def emit(self, record):
    self.buffer.append(record.__dict__)
    if (len(self.buffer) >= 1000
            or time.monotonic() - self.last_flush > self.interval):
        self.flush()
```

An exception raised inside `flush` propagates out of `emit`. -/
def AxiomHandler.emit {R E : Type} (ingest : List R → Option E) (now : Nat)
    (record : R) (s : HandlerState R) : HandlerState R × Nat × Option E :=
  let s₁ := { s with buffer := s.buffer ++ [record] }
  if s₁.buffer.length ≥ 1000 ∨ now - s₁.lastFlush > s₁.interval then
    AxiomHandler.flush ingest now s₁
  else (s₁, 0, none)

/-- Emit a sequence of records in order (at a fixed monotonic time),
accumulating the total number of ingest calls performed. -/
def AxiomHandler.emitAll {R E : Type} (ingest : List R → Option E) (now : Nat) :
    List R → HandlerState R → HandlerState R × Nat
  | [], s => (s, 0)
  | r :: rs, s =>
      let res := AxiomHandler.emit ingest now r s
      let rest := AxiomHandler.emitAll ingest now rs res.1
      (rest.1, res.2.1 + rest.2)

/-- `AsyncAxiomHandler.flush` (asynchronous handler, `logging_async.py`):

```python
async def flush(self):
    self.last_flush = time.monotonic()
    if len(self.buffer) == 0:
        return
    local_buffer, self.buffer = self.buffer, []
    try:
        await self.client.ingest_events(self.dataset, local_buffer)
    except Exception as e:
        print(f"AsyncAxiomHandler: Failed to flush logs: {e}")
        self.buffer.extend(local_buffer)
```

The `except` clause swallows every ingest failure (second component always
`none`) and re-queues the swapped-out batch. -/
def AsyncAxiomHandler.flush {R E : Type} (ingest : List R → Option E)
    (now : Nat) (s : HandlerState R) : HandlerState R × Option E :=
  let s₁ := { s with lastFlush := now }
  if s₁.buffer.length = 0 then (s₁, none)
  else
    let localBuffer := s₁.buffer
    let s₂ := { s₁ with buffer := [] }
    match ingest localBuffer with
    | none => (s₂, none)
    | some _ => ({ s₂ with buffer := s₂.buffer ++ localBuffer }, none)

/-! ## `axiom_py.query` — `QueryKind` and `QueryOptions`

```python
class QueryKind(Enum):
    ANALYTICS = "analytics"
    STREAM = "stream"
    APL = "apl"

@dataclass
class QueryOptions:
    streamingDuration: timedelta = field(default=None)
    nocache: bool = field(default=False)
    saveAsKind: QueryKind = field(default=QueryKind.ANALYTICS)
```

`saveAsKind` is modelled as `Option QueryKind`: enum members are always
truthy in Python, so `not opts.saveAsKind` holds exactly when the caller set
the field to `None`. -/

inductive QueryKind where
  | analytics | stream | apl
deriving DecidableEq, Repr

/-- The enum member's wire value (`QueryKind.<X>.value`). -/
def QueryKind.value : QueryKind → String
  | .analytics => "analytics"
  | .stream => "stream"
  | .apl => "apl"

/-- Python `str()` of the enum member, as interpolated by `"%s"`. -/
def QueryKind.pyStr : QueryKind → String
  | .analytics => "QueryKind.ANALYTICS"
  | .stream => "QueryKind.STREAM"
  | .apl => "QueryKind.APL"

/-- Python `str()` of an optional enum member (`str(None) == "None"`). -/
def pyStrOptKind : Option QueryKind → String
  | none => "None"
  | some k => k.pyStr

structure QueryOptions where
  streamingDuration : Option Timedelta := none
  nocache : Bool := false
  saveAsKind : Option QueryKind := some .analytics
deriving DecidableEq, Repr

/-- `Client.query_legacy` (`client.py`), up to the transport call:

```python
def query_legacy(self, id, query, opts):
    if not opts.saveAsKind or (opts.saveAsKind == QueryKind.APL):
        raise WrongQueryKindException(
            "invalid query kind %s: must be %s or %s"
            % (opts.saveAsKind, QueryKind.ANALYTICS, QueryKind.STREAM))
    path = "/v1/datasets/%s/query" % id
    ...
    res = self.edge_session.post(path, data=payload, params=params)
    ...
```

The result is the raised `WrongQueryKindException` message (if any) paired
with the number of transport (`edge_session.post`) calls performed. -/
def Client.query_legacy (opts : QueryOptions) : Option String × Nat :=
  if opts.saveAsKind.isNone ∨ opts.saveAsKind = some QueryKind.apl then
    (some ("invalid query kind " ++ pyStrOptKind opts.saveAsKind ++
      ": must be " ++ QueryKind.analytics.pyStr ++ " or " ++
      QueryKind.stream.pyStr), 0)
  else (none, 1)

/-! ## JSON values, `AxiomError` and `raise_response_error` (`client.py`)

JSON bodies are modelled by a small value type (numbers restricted to the
integers, which is all the embedded code paths produce or consume). -/

inductive Json where
  | str (s : String)
  | num (n : Int)
  | boolean (b : Bool)
  | null
  | arr (items : List Json)
  | obj (entries : List (String × Json))

/-- Dictionary key lookup on a JSON object. -/
def Json.lookup (j : Json) (key : String) : Option Json :=
  match j with
  | .obj entries => (entries.find? (fun kv => kv.1 == key)).map (fun kv => kv.2)
  | _ => none

/-- `AxiomError.Response`:

```python
@dataclass
class Response:
    message: str
    error: Optional[str]
```
-/
structure AxiomErrorResponse where
  message : String
  error : Option String
deriving DecidableEq, Repr

/-- `from_dict(AxiomError.Response, res.json())`: the dacite decode of the
two-field error body.  `message` is required to be a string; the
`Optional[str]` field `error` resolves to `None` when absent or `null`. -/
def decode_axiom_error_response (j : Json) : Except String AxiomErrorResponse :=
  match j with
  | .obj _ =>
      match j.lookup "message" with
      | some (.str m) =>
          match j.lookup "error" with
          | some (.str e) => .ok ⟨m, some e⟩
          | some .null => .ok ⟨m, none⟩
          | none => .ok ⟨m, none⟩
          | some _ => .error "wrong value type for field error"
      | some _ => .error "wrong value type for field message"
      | none => .error "missing value for field message"
  | _ => .error "input is not a dict"

/-- The normalized error raised on request failure (`class AxiomError`),
carrying the HTTP status, the chosen message and the `Exception` text. -/
structure AxiomErrorS where
  status : Nat
  message : String
  excMessage : String
deriving DecidableEq, Repr

/-- `AxiomError.__init__`:

```python
def __init__(self, status, res):
    message = res.error if res.error is not None else res.message
    super().__init__(f"API error {status}: {message}")
    self.status = status
    self.message = message
```
-/
def mkAxiomError (status : Nat) (res : AxiomErrorResponse) : AxiomErrorS :=
  let message := res.error.getD res.message
  { status := status
    message := message
    excMessage := "API error " ++ pyStrNat status ++ ": " ++ message }

/-- `raise_response_error` (`client.py`): `body` is the parsed JSON of the
response (`none` when `res.json()` itself raises), `reason` the HTTP reason
phrase; the result is the `AxiomError` raised, if any:

```python
def raise_response_error(res):
    if res.status_code >= 400:
        try:
            error_res = from_dict(AxiomError.Response, res.json())
        except Exception:
            error_res = AxiomError.Response(message=res.reason, error=None)
        raise AxiomError(res.status_code, error_res)
```
-/
def raise_response_error (statusCode : Nat) (body : Option Json)
    (reason : String) : Option AxiomErrorS :=
  if statusCode ≥ 400 then
    let errorRes :=
      match body with
      | some j =>
          match decode_axiom_error_response j with
          | .ok r => r
          | .error _ => ⟨reason, none⟩
      | none => ⟨reason, none⟩
    some (mkAxiomError statusCode errorRes)
  else none

/-! ## `datetime.datetime` and `iso8601.parse_date`

`axiom_py.util._convert_string_to_datetime` delegates to the third-party
`iso8601` library, whose grammar is the anchored regex

```
^(year:[0-9]{4})
 ( -(month:[0-9]{1,2})
   ( -(day:[0-9]{1,2})
     ( (sep:[ T]) (hour:[0-9]{2})
       ( :? (minute:[0-9]{2}) )?
       ( :? (second:[0-9]{1,2}) ( [.,] (fraction:[0-9]+) )? )?
       ( Z | (sign:[-+]) (tzhour:[0-9]{2}) :? (tzminute:[0-9]{2})? )?
     )?
   )?
 )?$
```

modelled here as a greedy recursive-descent recognizer over the
dash-separated forms (the compact no-dash date forms of the regex are not
modelled; the embedded code paths only exercise the dash-separated forms).
Missing month/day default to 1, missing time fields to 0, and a missing
timezone defaults to UTC (`parse_date`'s `default_timezone`), so every
parsed datetime is timezone-aware.  Out-of-range field values make the
`datetime` constructor raise, surfaced as a parse error. -/

structure PDatetime where
  year : Nat
  month : Nat
  day : Nat
  hour : Nat
  minute : Nat
  second : Nat
  microsecond : Nat
  tzOffsetMinutes : Int
deriving DecidableEq, Repr

/-- Read exactly `n` ASCII digits, returning their value. -/
def readDigitsAux (acc : Nat) : Nat → List Char → Option (Nat × List Char)
  | 0, cs => some (acc, cs)
  | n + 1, c :: cs =>
      if isAsciiDigit c then readDigitsAux (acc * 10 + digitVal c) n cs
      else none
  | _ + 1, [] => none

/-- Read exactly `n` ASCII digits. -/
def readFixedDigits (n : Nat) (cs : List Char) : Option (Nat × List Char) :=
  readDigitsAux 0 n cs

/-- Read one or two ASCII digits, greedily (`[0-9]{1,2}`). -/
def read1or2 : List Char → Option (Nat × List Char)
  | [] => none
  | c₁ :: rest =>
      if isAsciiDigit c₁ then
        match rest with
        | c₂ :: rest₂ =>
            if isAsciiDigit c₂ then
              some (digitVal c₁ * 10 + digitVal c₂, rest₂)
            else some (digitVal c₁, rest)
        | [] => some (digitVal c₁, [])
      else none

/-- Skip one optional colon (`:{0,1}`). -/
def skipOptColon : List Char → List Char
  | ':' :: rest => rest
  | cs => cs

/-- `(:? [0-9]{2})?` as one unit: `none` leaves the input untouched. -/
def tryColonDigits2 (cs : List Char) : Option (Nat × List Char) :=
  readFixedDigits 2 (skipOptColon cs)

/-- Microseconds from a fraction-digit group:
`int(Decimal("0.<frac>") * 10**6)` keeps the first six digits, right-padded
with zeros. -/
def fracToMicro (ds : List Char) : Nat :=
  let t := ds.take 6
  (t.foldl (fun a c => a * 10 + digitVal c) 0) * 10 ^ (6 - t.length)

/-- The optional timezone part: `Z`, or `[-+][0-9]{2} :? ([0-9]{2})?`.
Returns the parsed UTC offset in minutes (`none` when absent) and the rest
of the input; fails when a sign is present but malformed. -/
def parseTzPart : List Char → Option (Option Int × List Char)
  | [] => some (none, [])
  | 'Z' :: rest => some (some 0, rest)
  | c :: rest =>
      if c = '+' ∨ c = '-' then
        match readFixedDigits 2 rest with
        | none => none
        | some (hh, rest₁) =>
            let sign : Int := if c = '-' then -1 else 1
            let rest₂ := skipOptColon rest₁
            match readFixedDigits 2 rest₂ with
            | some (mm, rest₃) => some (some (sign * (hh * 60 + mm)), rest₃)
            | none => some (some (sign * (hh * 60)), rest₂)
      else some (none, c :: rest)

/-- The regex groups extracted from a datetime string, with the library's
defaults for the absent ones. -/
structure ParsedFields where
  year : Nat
  month : Nat := 1
  day : Nat := 1
  hour : Nat := 0
  minute : Nat := 0
  second : Nat := 0
  microsecond : Nat := 0
  timezone : Option Int := none
deriving DecidableEq, Repr

/-- The time-of-day part (after the `[ T]` separator), including the
optional fraction and timezone; requires the input to be fully consumed. -/
def parseTimePart (y mo d : Nat) (cs : List Char) : Option ParsedFields :=
  match readFixedDigits 2 cs with
  | none => none
  | some (h, r₀) =>
      let minuteRes := match tryColonDigits2 r₀ with
        | some (v, r) => (v, r)
        | none => (0, r₀)
      let mi := minuteRes.1
      let r₁ := minuteRes.2
      let secondRes : Nat × Nat × List Char :=
        match read1or2 (skipOptColon r₁) with
        | some (sv, r) =>
            match r with
            | p :: restF =>
                if p = '.' ∨ p = ',' then
                  let digs := restF.takeWhile isAsciiDigit
                  if digs.isEmpty then (sv, 0, r)
                  else (sv, fracToMicro digs, restF.drop digs.length)
                else (sv, 0, r)
            | [] => (sv, 0, [])
        | none => (0, 0, r₁)
      let sec := secondRes.1
      let us := secondRes.2.1
      let r₂ := secondRes.2.2
      match parseTzPart r₂ with
      | none => none
      | some (tz, r₃) =>
          if r₃.isEmpty then
            some { year := y, month := mo, day := d, hour := h, minute := mi,
                   second := sec, microsecond := us, timezone := tz }
          else none

/-- The dash-separated date part with its optional time part. -/
def parseDateFields (cs : List Char) : Option ParsedFields :=
  match readFixedDigits 4 cs with
  | none => none
  | some (y, rest) =>
      match rest with
      | [] => some { year := y }
      | '-' :: rest₁ =>
          match read1or2 rest₁ with
          | none => none
          | some (mo, rest₂) =>
              match rest₂ with
              | [] => some { year := y, month := mo }
              | '-' :: rest₃ =>
                  match read1or2 rest₃ with
                  | none => none
                  | some (d, rest₄) =>
                      match rest₄ with
                      | [] => some { year := y, month := mo, day := d }
                      | sep :: rest₅ =>
                          if sep = 'T' ∨ sep = ' ' then
                            parseTimePart y mo d rest₅
                          else none
              | _ => none
      | _ => none

/-- Gregorian leap year (`calendar.isleap`). -/
def isLeapYear (y : Nat) : Bool :=
  (y % 4 = 0 && y % 100 ≠ 0) || y % 400 = 0

/-- Number of days in a month, as validated by the `datetime` constructor. -/
def daysInMonth (y m : Nat) : Nat :=
  if m = 2 then (if isLeapYear y then 29 else 28)
  else if m = 4 ∨ m = 6 ∨ m = 9 ∨ m = 11 then 30
  else 31

/-- The range checks of the `datetime.datetime` constructor. -/
def validDatetimeFields (f : ParsedFields) : Bool :=
  1 ≤ f.year && f.year ≤ 9999 && 1 ≤ f.month && f.month ≤ 12 &&
  1 ≤ f.day && f.day ≤ daysInMonth f.year f.month &&
  f.hour ≤ 23 && f.minute ≤ 59 && f.second ≤ 59 && f.microsecond ≤ 999999

/-- `iso8601.parse_date(val)` with the default `default_timezone=UTC`:
a missing timezone yields offset 0, so the result is always timezone-aware. -/
def parse_date (s : String) : Except String PDatetime :=
  match parseDateFields s.data with
  | none => .error ("Unable to parse date string " ++ s)
  | some f =>
      if validDatetimeFields f then
        .ok ⟨f.year, f.month, f.day, f.hour, f.minute, f.second,
          f.microsecond, f.timezone.getD 0⟩
      else .error ("Unable to parse date string " ++ s)

/-- `axiom_py.util._convert_string_to_datetime`:

```python
def _convert_string_to_datetime(val: str) -> datetime:
    d = iso8601.parse_date(val)
    return d
```
-/
def convert_string_to_datetime (val : String) : Except String PDatetime :=
  parse_date val

/-- Zero-left-padded decimal rendering, as Python's `%02d`-style fields of
`datetime.isoformat`. -/
def padNum (width n : Nat) : String :=
  let s := Nat.repr n
  String.mk (List.replicate (width - s.length) '0') ++ s

/-- The `±HH:MM` suffix `datetime.isoformat` renders for an aware datetime
with the given UTC offset in minutes. -/
def utcoffsetSuffix (off : Int) : String :=
  let sign := if off < 0 then "-" else "+"
  let a := off.natAbs
  sign ++ padNum 2 (a / 60) ++ ":" ++ padNum 2 (a % 60)

/-- `datetime.isoformat("T")` for the timezone-aware datetimes produced by
`iso8601.parse_date`: the offset suffix is always present, the fraction only
when the microsecond component is non-zero. -/
def PDatetime.isoformat (d : PDatetime) : String :=
  padNum 4 d.year ++ "-" ++ padNum 2 d.month ++ "-" ++ padNum 2 d.day ++ "T" ++
  padNum 2 d.hour ++ ":" ++ padNum 2 d.minute ++ ":" ++ padNum 2 d.second ++
  (if d.microsecond = 0 then "" else "." ++ padNum 6 d.microsecond) ++
  utcoffsetSuffix d.tzOffsetMinutes

/-- The `isinstance(obj, datetime)` branch of `handle_json_serialization`:

```python
if isinstance(obj, datetime):
    return obj.isoformat("T") + "Z"
```
-/
def serialize_datetime (d : PDatetime) : String :=
  d.isoformat ++ "Z"

/-! ## `Client.ingest` response decoding (`client.py`)

```python
res = self.edge_session.post(path, data=payload, headers=headers, params=params)
status_snake = decamelize(res.json())
return from_dict(IngestStatus, status_snake)
```

`humps.decamelize` rewrites every dictionary key from camelCase to
snake_case, recursively (modelled for plain camelCase keys, the only shapes
this API produces: an underscore is inserted before each uppercase letter,
which is lowercased). -/

/-- `humps.decamelize` on a single key. -/
def decamelizeKey (s : String) : String :=
  String.mk (s.data.foldr
    (fun c acc => if c.isUpper then '_' :: c.toLower :: acc else c :: acc) [])

mutual

/-- `humps.decamelize` on a JSON value: dictionary keys are converted
recursively; other values are untouched. -/
def decamelizeJson : Json → Json
  | .str s => .str s
  | .num n => .num n
  | .boolean b => .boolean b
  | .null => .null
  | .arr items => .arr (decamelizeJsonList items)
  | .obj entries => .obj (decamelizeJsonEntries entries)

def decamelizeJsonList : List Json → List Json
  | [] => []
  | j :: js => decamelizeJson j :: decamelizeJsonList js

def decamelizeJsonEntries : List (String × Json) → List (String × Json)
  | [] => []
  | (k, v) :: kvs => (decamelizeKey k, decamelizeJson v) :: decamelizeJsonEntries kvs

end

/-- `IngestFailure` (`client.py`): the ingestion failure of a single event. -/
structure IngestFailure where
  timestamp : PDatetime
  error : String
deriving DecidableEq, Repr

/-- `IngestStatus` (`client.py`): the status after an event ingestion
operation. -/
structure IngestStatus where
  ingested : Int
  failed : Int
  failures : List IngestFailure
  processed_bytes : Int
  blocks_created : Int
  wal_length : Int
deriving DecidableEq, Repr

/-- A required `int` field of a dacite decode. -/
def requireInt (j : Json) (key : String) : Except String Int :=
  match j.lookup key with
  | some (.num n) => .ok n
  | some _ => .error ("wrong value type for field " ++ key)
  | none => .error ("missing value for field " ++ key)

/-- `from_dict(IngestFailure, _)`: the `datetime` field goes through the
`_convert_string_to_datetime` type hook. -/
def decodeIngestFailure (j : Json) : Except String IngestFailure := do
  let ts ←
    match j.lookup "timestamp" with
    | some (.str s) => convert_string_to_datetime s
    | some _ => .error "wrong value type for field timestamp"
    | none => .error "missing value for field timestamp"
  let err ←
    match j.lookup "error" with
    | some (.str e) => Except.ok e
    | some _ => .error "wrong value type for field error"
    | none => .error "missing value for field error"
  .ok ⟨ts, err⟩

def decodeIngestFailureList : List Json → Except String (List IngestFailure)
  | [] => .ok []
  | j :: js => do
      let f ← decodeIngestFailure j
      let fs ← decodeIngestFailureList js
      .ok (f :: fs)

/-- `from_dict(IngestStatus, _)`: every field of the dataclass is required;
`failures` decodes a list of `IngestFailure` recursively. -/
def decodeIngestStatus (j : Json) : Except String IngestStatus :=
  match j with
  | .obj _ => do
      let ingested ← requireInt j "ingested"
      let failed ← requireInt j "failed"
      let failures ←
        match j.lookup "failures" with
        | some (.arr items) => decodeIngestFailureList items
        | some _ => .error "wrong value type for field failures"
        | none => .error "missing value for field failures"
      let processed_bytes ← requireInt j "processed_bytes"
      let blocks_created ← requireInt j "blocks_created"
      let wal_length ← requireInt j "wal_length"
      .ok ⟨ingested, failed, failures, processed_bytes, blocks_created,
        wal_length⟩
  | _ => .error "input is not a dict"

/-- The ingest response path of `Client.ingest`: decamelize the raw JSON
keys, then decode into `IngestStatus`. -/
def Client.ingest_decode (j : Json) : Except String IngestStatus :=
  decodeIngestStatus (decamelizeJson j)

/-- The raw JSON mapping of the C7 example. -/
def ingestResponseExample : Json :=
  .obj [("ingested", .num 2), ("failed", .num 0), ("failures", .arr []),
    ("processedBytes", .num 100), ("blocksCreated", .num 1),
    ("walLength", .num 1)]

/-! ## `Client.before_shutdown_funcs` — a class-level attribute (`client.py`)

```python
class Client:
    before_shutdown_funcs: List[Callable] = []

    def before_shutdown(self, func: Callable):
        self.before_shutdown_funcs.append(func)

    def shutdown_hook(self):
        for func in self.before_shutdown_funcs:
            func()
        ...
```

Python attribute semantics: `self.before_shutdown_funcs` first consults the
instance dictionary and falls back to the class attribute.  `__init__` never
assigns the attribute on the instance, and `list.append` mutates the object
the name resolves to in place, so every append lands on the single list
object stored on the class.  The model uses a small heap of list objects:
`heap` maps references to lists of registered callbacks, `classRef` is the
reference held by the class attribute, and `own inst` is the instance
dictionary entry for the attribute (always `none` in this codebase). -/

structure ClientWorld (F : Type) where
  heap : Nat → List F
  classRef : Nat
  own : Nat → Option Nat

/-- Python attribute resolution for `self.before_shutdown_funcs`. -/
def attrRef {F : Type} (w : ClientWorld F) (inst : Nat) : Nat :=
  (w.own inst).getD w.classRef

/-- Store a list at a heap reference. -/
def heapUpdate {F : Type} (h : Nat → List F) (r : Nat) (l : List F) :
    Nat → List F :=
  fun x => if x = r then l else h x

/-- `Client.before_shutdown`: `self.before_shutdown_funcs.append(func)` —
an in-place append on the list object the attribute resolves to. -/
def Client.before_shutdown {F : Type} (w : ClientWorld F) (inst : Nat)
    (f : F) : ClientWorld F :=
  let r := attrRef w inst
  { w with heap := heapUpdate w.heap r (w.heap r ++ [f]) }

/-- `Client.shutdown_hook`: the callbacks invoked, in registration order
(the session closing and the `is_closed` flag are not modelled). -/
def Client.shutdown_hook {F : Type} (w : ClientWorld F) (inst : Nat) :
    List F :=
  w.heap (attrRef w inst)

/-!
## Theorems

The claims of the specification, proved against the embedding above.
-/

/-- An ASCII digit is not a lowercase letter. -/
theorem digit_not_lowerAlpha {c : Char} (h : isAsciiDigit c = true) :
    isLowerAlpha c = false := by
  simp [isAsciiDigit] at h
  simp [isLowerAlpha]
  omega

/-- C1 (counterexample): the duration `1m` (one minute, a single-digit
integer with unit `m`) serializes to `"60s"`, which the single-digit parser
rejects with the parse-failure exception instead of returning the original
duration: the round-trip fails. -/
theorem duration_roundtrip_fails_one_minute :
    serialize_timedelta (Timedelta.ofMinutes 1) = "60s" ∧
    convert_string_to_timedelta (serialize_timedelta (Timedelta.ofMinutes 1)) =
      .error (.exception "failed to parse timedelta field from value 60s") := by
  constructor
  · rfl
  · rfl

/-- C1 (amended): the round-trip `decode (serialize d) = d` holds for the
durations `<1-digit><unit>` whose unit is `s`, and for the zero duration of
any unit; for units `m` and `h` the serializer emits the total number of
seconds (which the single-digit grammar cannot re-parse) and for unit `d`
it drops the days entirely. -/
theorem duration_roundtrip_holds_for_seconds (n : Nat) (u : TdUnit)
    (hn : n ≤ 9) (hu : u = TdUnit.s ∨ n = 0) :
    convert_string_to_timedelta (serialize_timedelta (u.apply n)) =
      .ok (u.apply n) := by
  rcases hu with hu | hn0
  · subst hu
    interval_cases n <;> rfl
  · subst hn0
    cases u <;> rfl

/-- Witness for `duration_roundtrip_holds_for_seconds` at `5s`. -/
theorem duration_roundtrip_holds_for_seconds_witness :
    convert_string_to_timedelta (serialize_timedelta (TdUnit.s.apply 5)) =
      .ok (TdUnit.s.apply 5) :=
  duration_roundtrip_holds_for_seconds 5 TdUnit.s (by decide) (Or.inl rfl)

/-- C9: an input that is a bare unit letter (`"s"`) matches the regex
`^([0-9]?)([a-z])$` with an empty digit group, so `int("")` raises a
`ValueError` distinct from the documented parse-failure exception; and
whenever the input starts with an ASCII digit, the `int` conversion never
fails, so the `ValueError` branch is unreachable. -/
theorem duration_decoder_empty_digit_value_error :
    convert_string_to_timedelta "s" = .error .valueError ∧
    ∀ (val : String) (c : Char) (cs : List Char),
      val.data = c :: cs → isAsciiDigit c = true →
      convert_string_to_timedelta val ≠ .error PyErr.valueError := by
  refine ⟨by rfl, ?_⟩
  intro val c cs hdata hdig
  have hlower := digit_not_lowerAlpha hdig
  unfold convert_string_to_timedelta
  by_cases hv : val = "0"
  · simp [hv]
  · rw [if_neg hv, hdata]
    cases cs with
    | nil =>
        simp [matchTimedeltaRegex, hlower]
    | cons c₂ cs₂ =>
        cases cs₂ with
        | nil =>
            simp only [matchTimedeltaRegex]
            by_cases h2 : (isAsciiDigit c && isLowerAlpha c₂) = true
            · rw [if_pos h2]
              dsimp only
              split_ifs <;> simp
            · rw [if_neg h2]
              simp
        | cons c₃ cs₃ =>
            simp [matchTimedeltaRegex]

/-- Witness for `duration_decoder_empty_digit_value_error`: the digit-prefixed
input `"5x"` never reaches the `ValueError` branch. -/
theorem duration_decoder_empty_digit_value_error_witness :
    convert_string_to_timedelta "s" = .error .valueError ∧
    convert_string_to_timedelta "5x" ≠ .error PyErr.valueError :=
  ⟨duration_decoder_empty_digit_value_error.1,
    duration_decoder_empty_digit_value_error.2 "5x" '5' ['x'] rfl (by decide)⟩

/-- C2 (counterexample): on the synchronous handler, with an injected ingest
function that raises, `emit` on a buffer holding 999 records (so the
size-based flush fires) raises: the ingest failure is not caught at the
flush boundary and propagates to the caller of `emit`. -/
theorem sync_emit_propagates_ingest_failure :
    (AxiomHandler.emit (R := Unit) (E := Unit) (fun _ => some ()) 0 ()
      ⟨List.replicate 999 (), 0, 1⟩).2.2 = some () := by
  decide

/-- C2 (amended): the asynchronous handler's `flush` never lets an ingest
failure propagate (the exception channel is always `none`), and on failure
the swapped-out batch is re-queued, leaving the buffer as it was; the
synchronous handler, by contrast, propagates ingest failures out of `emit`
(see the counterexample). -/
theorem async_flush_never_raises {R E : Type} (ingest : List R → Option E)
    (now : Nat) (s : HandlerState R) :
    (AsyncAxiomHandler.flush ingest now s).2 = none ∧
    (∀ e, ingest s.buffer = some e →
      (AsyncAxiomHandler.flush ingest now s).1.buffer = s.buffer) := by
  unfold AsyncAxiomHandler.flush
  by_cases hb : s.buffer.length = 0
  · simp [hb]
  · simp only [hb, if_false, ite_false]
    constructor
    · cases hres : ingest s.buffer <;> simp [hres]
    · intro e he
      simp [he]

/-- Witness for `async_flush_never_raises` at a concrete failing ingest. -/
theorem async_flush_never_raises_witness :
    (AsyncAxiomHandler.flush (R := Unit) (E := Unit) (fun _ => some ()) 7
      ⟨[()], 0, 1⟩).2 = none ∧
    (AsyncAxiomHandler.flush (R := Unit) (E := Unit) (fun _ => some ()) 7
      ⟨[()], 0, 1⟩).1.buffer = [()] :=
  ⟨(async_flush_never_raises (fun _ => some ()) 7 ⟨[()], 0, 1⟩).1,
    (async_flush_never_raises (fun _ => some ()) 7 ⟨[()], 0, 1⟩).2 () rfl⟩

/-- While the buffer stays strictly below 1000 records and the interval has
not elapsed, `emit` only appends: no flush happens and no ingest call is
made. -/
theorem emitAll_no_flush {R E : Type} (ingest : List R → Option E) (now : Nat) :
    ∀ (records : List R) (s : HandlerState R),
      s.buffer.length + records.length ≤ 999 →
      now - s.lastFlush ≤ s.interval →
      AxiomHandler.emitAll ingest now records s =
        ({ s with buffer := s.buffer ++ records }, 0) := by
  intro records
  induction records with
  | nil =>
      intro s _ _
      simp [AxiomHandler.emitAll]
  | cons r rs ih =>
      intro s hlen htime
      have hemit :
          AxiomHandler.emit (E := E) ingest now r s =
            ({ s with buffer := s.buffer ++ [r] }, 0, none) := by
        unfold AxiomHandler.emit
        rw [if_neg]
        push_neg
        refine ⟨?_, by simpa using htime⟩
        simp only [List.length_append, List.length_cons, List.length_nil]
          at hlen ⊢
        omega
      unfold AxiomHandler.emitAll
      rw [hemit]
      dsimp only
      have hrec := ih { s with buffer := s.buffer ++ [r] }
        (by
          simp only [List.length_append, List.length_cons, List.length_nil]
            at hlen ⊢
          omega)
        (by simpa using htime)
      rw [hrec]
      simp

/-- `emitAll` over a concatenation processes the two halves in order and adds
the ingest-call counts. -/
theorem emitAll_append {R E : Type} (ingest : List R → Option E) (now : Nat) :
    ∀ (xs ys : List R) (s : HandlerState R),
      AxiomHandler.emitAll ingest now (xs ++ ys) s =
        ((AxiomHandler.emitAll ingest now ys
            (AxiomHandler.emitAll ingest now xs s).1).1,
          (AxiomHandler.emitAll ingest now xs s).2 +
            (AxiomHandler.emitAll ingest now ys
              (AxiomHandler.emitAll ingest now xs s).1).2) := by
  intro xs
  induction xs with
  | nil =>
      intro ys s
      simp [AxiomHandler.emitAll]
  | cons x xs ih =>
      intro ys s
      simp only [List.cons_append, AxiomHandler.emitAll, List.append_eq]
      rw [ih]
      simp [Nat.add_assoc]

/-- C3: starting from an empty buffer with the interval not yet elapsed
(`now - lastFlush ≤ interval`), emitting exactly 1000 records performs
exactly one ingest call, while emitting 999 records performs none. -/
theorem batch_size_trigger {R E : Type} (ingest : List R → Option E) (r : R)
    (lf iv now : Nat) (h : now - lf ≤ iv) :
    (AxiomHandler.emitAll ingest now (List.replicate 1000 r) ⟨[], lf, iv⟩).2 = 1 ∧
    (AxiomHandler.emitAll ingest now (List.replicate 999 r) ⟨[], lf, iv⟩).2 = 0 := by
  have h999 := emitAll_no_flush ingest now (List.replicate 999 r) ⟨[], lf, iv⟩
    (by simp) h
  constructor
  · have hsplit : List.replicate 1000 r = List.replicate 999 r ++ [r] :=
      List.replicate_succ' 999 r
    have hemitLast :
        AxiomHandler.emit (E := E) ingest now r ⟨List.replicate 999 r, lf, iv⟩ =
          (⟨[], now, iv⟩, 1, ingest (List.replicate 999 r ++ [r])) := by
      unfold AxiomHandler.emit AxiomHandler.flush
      dsimp only
      rw [if_pos (Or.inl (by simp)), if_neg (by simp)]
    rw [hsplit, emitAll_append, h999]
    simp only [AxiomHandler.emitAll, List.nil_append]
    rw [hemitLast]
    simp [AxiomHandler.emitAll]
  · rw [h999]

/-- Witness for `batch_size_trigger` at a concrete handler configuration. -/
theorem batch_size_trigger_witness :
    (AxiomHandler.emitAll (R := Unit) (E := Unit) (fun _ => none) 0
      (List.replicate 1000 ()) ⟨[], 0, 1⟩).2 = 1 ∧
    (AxiomHandler.emitAll (R := Unit) (E := Unit) (fun _ => none) 0
      (List.replicate 999 ()) ⟨[], 0, 1⟩).2 = 0 :=
  batch_size_trigger (fun _ => none) () 0 1 0 (by decide)

/-- C4: calling `flush` twice in succession with no intervening `emit`
performs exactly one ingest call when the buffer is non-empty (the second
flush finds the buffer empty), and a flush that finds the buffer empty
performs no ingest call at all. -/
theorem flush_idempotent {R E : Type} (ingest : List R → Option E)
    (now₁ now₂ : Nat) (s : HandlerState R) (h : s.buffer ≠ []) :
    (AxiomHandler.flush ingest now₁ s).2.1 +
      (AxiomHandler.flush ingest now₂
        (AxiomHandler.flush ingest now₁ s).1).2.1 = 1 ∧
    ∀ t : HandlerState R, t.buffer = [] →
      (AxiomHandler.flush ingest now₂ t).2.1 = 0 := by
  constructor
  · have hne : ¬({ s with lastFlush := now₁ } : HandlerState R).buffer.length = 0 := by
      simpa using List.length_eq_zero.not.mpr h
    unfold AxiomHandler.flush
    rw [if_neg (by simpa using hne)]
    simp
  · intro t ht
    unfold AxiomHandler.flush
    rw [if_pos (by simp [ht])]

/-- Witness for `flush_idempotent` at a concrete one-record buffer. -/
theorem flush_idempotent_witness :
    (AxiomHandler.flush (R := Unit) (E := Unit) (fun _ => none) 0
        ⟨[()], 0, 1⟩).2.1 +
      (AxiomHandler.flush (R := Unit) (E := Unit) (fun _ => none) 3
        (AxiomHandler.flush (R := Unit) (E := Unit) (fun _ => none) 0
          ⟨[()], 0, 1⟩).1).2.1 = 1 ∧
    (AxiomHandler.flush (R := Unit) (E := Unit) (fun _ => none) 3
      ⟨[], 0, 1⟩).2.1 = 0 :=
  ⟨(flush_idempotent (fun _ => none) 0 3 ⟨[()], 0, 1⟩ (by decide)).1,
    (flush_idempotent (fun _ => none) 0 3 ⟨[()], 0, 1⟩ (by decide)).2
      ⟨[], 0, 1⟩ rfl⟩

/-- C5: for every `QueryOptions` whose `saveAsKind` is unset (`None`, the
only falsy possibility) or equal to `QueryKind.APL`, `query_legacy` raises
`WrongQueryKindException` and performs zero transport calls. -/
theorem query_legacy_wrong_kind_no_transport (opts : QueryOptions)
    (h : opts.saveAsKind = none ∨ opts.saveAsKind = some QueryKind.apl) :
    (Client.query_legacy opts).1.isSome = true ∧
    (Client.query_legacy opts).2 = 0 := by
  have hcond : opts.saveAsKind.isNone = true ∨
      opts.saveAsKind = some QueryKind.apl := by
    rcases h with h | h
    · exact Or.inl (by simp [h])
    · exact Or.inr h
  unfold Client.query_legacy
  rw [if_pos hcond]
  exact ⟨rfl, rfl⟩

/-- Witness for `query_legacy_wrong_kind_no_transport` with
`saveAsKind = QueryKind.APL`. -/
theorem query_legacy_wrong_kind_no_transport_witness :
    (Client.query_legacy
      { saveAsKind := some QueryKind.apl }).1.isSome = true ∧
    (Client.query_legacy { saveAsKind := some QueryKind.apl }).2 = 0 :=
  query_legacy_wrong_kind_no_transport { saveAsKind := some QueryKind.apl }
    (Or.inr rfl)

/-- C6: for every response with HTTP status ≥ 400 whose body parses to a
`{message, error}` record with both fields present as strings, the raised
`AxiomError` carries the HTTP status and the body's `error` field (preferred
over `message`). -/
theorem error_normalization_prefers_error_field (status : Nat)
    (h : 400 ≤ status) (j : Json) (m e : String)
    (hj : decode_axiom_error_response j = .ok ⟨m, some e⟩) (reason : String) :
    raise_response_error status (some j) reason =
      some { status := status, message := e
             excMessage := "API error " ++ pyStrNat status ++ ": " ++ e } := by
  unfold raise_response_error
  rw [if_pos h]
  dsimp only
  rw [hj]
  rfl

/-- Witness for `error_normalization_prefers_error_field` at the concrete
example of the claim: status 400 with body
`{"message": "Bad request", "error": "Invalid payload"}`. -/
theorem error_normalization_prefers_error_field_witness :
    raise_response_error 400
      (some (Json.obj [("message", Json.str "Bad request"),
        ("error", Json.str "Invalid payload")])) "Bad Request" =
      some { status := 400, message := "Invalid payload"
             excMessage := "API error 400: Invalid payload" } :=
  error_normalization_prefers_error_field 400 (by decide)
    (Json.obj [("message", Json.str "Bad request"),
      ("error", Json.str "Invalid payload")])
    "Bad request" "Invalid payload" rfl "Bad Request"

/-- C8 (counterexample): the valid ISO-8601 input `2021-01-01T00:00:00+02:00`
decodes successfully, but re-serializing the resulting datetime appends a
literal `Z` after the rendered offset, producing
`2021-01-01T00:00:00+02:00Z`, which the ISO-8601 decoder itself rejects:
the round-tripped string ends in `Z` but is not a valid ISO-8601 string. -/
theorem timestamp_roundtrip_not_valid_iso8601 :
    convert_string_to_datetime "2021-01-01T00:00:00+02:00" =
      .ok ⟨2021, 1, 1, 0, 0, 0, 0, 120⟩ ∧
    serialize_datetime ⟨2021, 1, 1, 0, 0, 0, 0, 120⟩ =
      "2021-01-01T00:00:00+02:00Z" ∧
    convert_string_to_datetime "2021-01-01T00:00:00+02:00Z" =
      .error "Unable to parse date string 2021-01-01T00:00:00+02:00Z" := by
  refine ⟨by rfl, by rfl, by rfl⟩

/-- C8 (amended): every timestamp accepted by the decoder re-serializes to
its `isoformat` rendering — which always carries an explicit offset, since
the decoder attaches a timezone to every result — with a literal `Z`
appended; the result therefore always ends in `Z`, but is not itself valid
ISO-8601 (the decoder rejects it, see the counterexample). -/
theorem timestamp_serialization_appends_z (s : String) (d : PDatetime)
    (h : convert_string_to_datetime s = .ok d) :
    serialize_datetime d = d.isoformat ++ "Z" ∧
    (serialize_datetime d).data.getLast? = some 'Z' := by
  refine ⟨rfl, ?_⟩
  show (d.isoformat ++ "Z").data.getLast? = some 'Z'
  rw [String.data_append]
  exact List.getLast?_concat _

/-- Witness for `timestamp_serialization_appends_z` at the concrete input
`2021-01-01T00:00:00+02:00`. -/
theorem timestamp_serialization_appends_z_witness :
    serialize_datetime ⟨2021, 1, 1, 0, 0, 0, 0, 120⟩ =
      PDatetime.isoformat ⟨2021, 1, 1, 0, 0, 0, 0, 120⟩ ++ "Z" ∧
    (serialize_datetime ⟨2021, 1, 1, 0, 0, 0, 0, 120⟩).data.getLast? =
      some 'Z' :=
  timestamp_serialization_appends_z "2021-01-01T00:00:00+02:00"
    ⟨2021, 1, 1, 0, 0, 0, 0, 120⟩ rfl

/-- C7: decoding the raw JSON mapping
`{"ingested": 2, "failed": 0, "failures": [], "processedBytes": 100,
"blocksCreated": 1, "walLength": 1}` through the ingest response path
(decamelize, then `from_dict` into `IngestStatus`) yields exactly
`IngestStatus(ingested=2, failed=0, failures=[], processed_bytes=100,
blocks_created=1, wal_length=1)`. -/
theorem ingest_status_decode_example :
    Client.ingest_decode ingestResponseExample =
      .ok ⟨2, 0, [], 100, 1, 1⟩ := by
  rfl

/-- C10: `before_shutdown_funcs` is a class-level attribute, so
registration via `before_shutdown` on one client is visible to
`shutdown_hook` on any other client instance: in any world where neither
instance carries its own attribute (as `__init__` never assigns one),
a callback registered on instance `a` is invoked by `shutdown_hook` on a
different instance `b`. -/
theorem before_shutdown_funcs_shared_across_instances {F : Type}
    (w : ClientWorld F) (a b : Nat) (f : F) (hab : a ≠ b)
    (ha : w.own a = none) (hb : w.own b = none) :
    f ∈ Client.shutdown_hook (Client.before_shutdown w a f) b := by
  unfold Client.shutdown_hook Client.before_shutdown attrRef heapUpdate
  simp [ha, hb]

/-- Witness for `before_shutdown_funcs_shared_across_instances`: callback 7
registered on instance 1 runs when instance 2 shuts down. -/
theorem before_shutdown_funcs_shared_across_instances_witness :
    7 ∈ Client.shutdown_hook
      (Client.before_shutdown (F := Nat)
        ⟨fun _ => [], 0, fun _ => none⟩ 1 7) 2 :=
  before_shutdown_funcs_shared_across_instances
    ⟨fun _ => [], 0, fun _ => none⟩ 1 2 7 (by decide) rfl rfl
